import Mathlib

/-!
Verification development for the elijah-openstack cloudlet core.

The definitions below are a shallow embedding of the Python sources
`nova/compute/cloudlet_driver.py` (class CloudletDriver) and
`nova/compute/cloudlet_api.py` (class CloudletAPI, class PortForwarding).
Python dictionaries are embedded as association lists with dict semantics,
subprocess monitoring as explicit poll-tick traces, and filesystem side
effects as explicit action traces.
-/

namespace Cloudlet

/-- Errors raised by the embedded code paths.  `instanceNotRunning` embeds
the nova InstanceNotRunning, `handoffError` the HandoffError raised both in
cloudlet_api.py and in the elijah handoff library, `nameError` a Python
NameError (use of a never-assigned local variable), `valueError` a Python
ValueError (tuple-unpack arity mismatch). -/
inductive CloudletErr where
  | instanceNotRunning (instanceId : String)
  | handoffError (msg : String)
  | imageNotFound (msg : String)
  | nameError
  | valueError
  deriving DecidableEq, Repr

instance {ε α : Type} [DecidableEq ε] [DecidableEq α] :
    DecidableEq (Except ε α) := fun x y =>
  match x, y with
  | .ok a, .ok b =>
      if h : a = b then .isTrue (by rw [h]) else .isFalse (by simp [h])
  | .error a, .error b =>
      if h : a = b then .isTrue (by rw [h]) else .isFalse (by simp [h])
  | .ok _, .error _ => .isFalse (by simp)
  | .error _, .ok _ => .isFalse (by simp)

/-- Abstract handle to a live session object: a synthesis.VM_Overlay value
(resumed-base session) or a synthesis.SynthesizedVM value (synthesized
session).  Only identity matters to the registry, so we carry a tag. -/
structure Session where
  sid : Nat
  deriving DecidableEq, Repr

/-- Python dict embedded as an association list with unique keys. -/
abbrev Dict (α : Type) := List (String × α)

/-- dict.get(key, None) -/
def dictGet {α : Type} : Dict α → String → Option α
  | [], _ => none
  | (k, v) :: rest, key => if k = key then some v else dictGet rest key

/-- del dict[key] -/
def dictDel {α : Type} : Dict α → String → Dict α
  | [], _ => []
  | (k, v) :: rest, key =>
      if k = key then dictDel rest key else (k, v) :: dictDel rest key

/-- dict[key] = value -/
def dictSet {α : Type} : Dict α → String → α → Dict α
  | [], key, v => [(key, v)]
  | (k, w) :: rest, key, v =>
      if k = key then (key, v) :: rest else (k, w) :: dictSet rest key v

/-- The two module-level session dictionaries held by CloudletDriver
(cloudlet_driver.py lines 72-74): `resumed_vm_dict` maps an instance uuid
to its resumed-base VM_Overlay session, `synthesized_vm_dics` maps an
instance uuid to its SynthesizedVM session. -/
structure Registry where
  resumed_vm_dict : Dict Session
  synthesized_vm_dics : Dict Session
  deriving DecidableEq, Repr

/-- At most one live session is registered for a VM identifier: an id is
never present in both session dictionaries at once. -/
def Registry.atMostOneSession (reg : Registry) : Prop :=
  ∀ uuid, dictGet reg.resumed_vm_dict uuid = none ∨
    dictGet reg.synthesized_vm_dics uuid = none

/-- Program points of CloudletDriver.perform_vmhandoff (cloudlet_driver.py
lines 302-370) that matter to the registry: the session is looked up at
line 308, `_handoff_send` runs at lines 343-345 with the registry
untouched, and the session is deleted at line 351 only after
`_handoff_send` has returned. -/
inductive HandoffPoint where
  | beforeTake
  | duringHandoffSend
  | afterConsume
  | done
  deriving DecidableEq, Repr

/-- Registry contents at each program point of perform_vmhandoff, on the
path where the session lookup at line 308 succeeded. -/
def performVmhandoffRegistryAt (reg : Registry) (uuid : String) :
    HandoffPoint → Registry
  | .beforeTake => reg
  | .duringHandoffSend => reg
  | .afterConsume =>
      { reg with synthesized_vm_dics := dictDel reg.synthesized_vm_dics uuid }
  | .done =>
      { reg with synthesized_vm_dics := dictDel reg.synthesized_vm_dics uuid }

/-- Program points of CloudletDriver.create_overlay_vm (cloudlet_driver.py
lines 242-300): the session is looked up at line 283 and deleted at line
286 before `vm_overlay.create_overlay()` runs at line 287. -/
inductive OverlayPoint where
  | beforeTake
  | duringCreateOverlay
  | afterUpload
  deriving DecidableEq, Repr

/-- Registry contents at each program point of create_overlay_vm, on the
path where the session lookup at line 283 succeeded. -/
def createOverlayRegistryAt (reg : Registry) (uuid : String) :
    OverlayPoint → Registry
  | .beforeTake => reg
  | .duringCreateOverlay =>
      { reg with resumed_vm_dict := dictDel reg.resumed_vm_dict uuid }
  | .afterUpload =>
      { reg with resumed_vm_dict := dictDel reg.resumed_vm_dict uuid }

/-- The registry-relevant branches of CloudletDriver.spawn (cloudlet_driver.py
lines 611-657): a synthesis spawn or a handoff spawn registers the new
session in `synthesized_vm_dics`; resuming a base VM registers in
`resumed_vm_dict` (resume_basevm, line 718); a plain spawn registers
nothing. -/
inductive SpawnMode where
  | synthesis
  | handoffRecv
  | resumeBase
  | plain
  deriving DecidableEq, Repr

/-- Effect of CloudletDriver.spawn on the session registry. -/
def spawnRegister (reg : Registry) (uuid : String) (mode : SpawnMode)
    (s : Session) : Registry :=
  match mode with
  | .synthesis =>
      { reg with synthesized_vm_dics := dictSet reg.synthesized_vm_dics uuid s }
  | .handoffRecv =>
      { reg with synthesized_vm_dics := dictSet reg.synthesized_vm_dics uuid s }
  | .resumeBase =>
      { reg with resumed_vm_dict := dictSet reg.resumed_vm_dict uuid s }
  | .plain => reg

/-- Effect of CloudletDriver._destroy (cloudlet_driver.py lines 673-697)
on the session registry: both dictionaries are checked and a registered
session of either variant is terminated and deleted. -/
def destroyCleanup (reg : Registry) (uuid : String) : Registry :=
  { resumed_vm_dict := dictDel reg.resumed_vm_dict uuid,
    synthesized_vm_dics := dictDel reg.synthesized_vm_dics uuid }

/-- Observable overlay-artifact actions of create_overlay_vm. -/
inductive OverlayAction where
  | createOverlay
  | uploadOverlay
  | removeZip
  deriving DecidableEq, Repr

/-- CloudletDriver.create_overlay_vm (cloudlet_driver.py lines 242-300),
restricted to the domain check, the session registry and the
overlay-producing actions.  `domainPresent` is whether
`self._host.get_domain(instance)` succeeds at line 245; when it raises
InstanceNotFound the method re-raises InstanceNotRunning (line 247).  When
no resumed-base session is registered (line 283-285) the method raises
InstanceNotRunning before `create_overlay` and before the glance upload. -/
def createOverlayVm (domainPresent : Bool) (reg : Registry) (uuid : String) :
    Except CloudletErr Registry × List OverlayAction :=
  if domainPresent = false then
    (.error (.instanceNotRunning uuid), [])
  else
    match dictGet reg.resumed_vm_dict uuid with
    | none => (.error (.instanceNotRunning uuid), [])
    | some _ =>
        (.ok { reg with resumed_vm_dict := dictDel reg.resumed_vm_dict uuid },
         [.createOverlay, .uploadOverlay, .removeZip])

/-- A concrete registry holding one synthesized session, used as the
counterexample input for the handoff-consumption timing claim. -/
def c1Registry : Registry :=
  { resumed_vm_dict := [], synthesized_vm_dics := [("vm-1", ⟨0⟩)] }

/-! Polling loop of the send-side handoff worker (_handoff_send,
cloudlet_driver.py lines 420-445). -/

/-- One tick of the fixed-interval polling loop `_wait_for_handoff_send`:
`ret` is the value of `proc.poll()` at this tick (none while the worker is
still running, the exit code once it has exited) and `chunk` is the stdout
read at this tick. -/
structure PollTick where
  ret : Option Int
  chunk : String
  deriving DecidableEq, Repr

/-- The loop body of `_wait_for_handoff_send` iterated by
FixedIntervalLoopingCall: while `proc.poll()` is None the tick only logs
stdout; as soon as it returns an exit code the loop raises
LoopingCallDone, whatever the code is.  Returns the observed exit code,
or none when the trace ends with the worker still running (the real loop
would keep polling). -/
def waitForHandoffSend : List PollTick → Option Int
  | [] => none
  | t :: rest =>
      match t.ret with
      | some code => some code
      | none => waitForHandoffSend rest

/-- The tail of CloudletDriver._handoff_send after the worker launch
(cloudlet_driver.py lines 440-445): the polling loop runs to completion
and the function then returns `residue_zipfile` directly; the exit code
delivered by `proc.poll()` is never inspected.  The outer none models a
worker that never exits (the loop never terminates). -/
def handoffSendResult (ticks : List PollTick) (residueZipfile : Option String) :
    Option (Except CloudletErr (Option String)) :=
  match waitForHandoffSend ticks with
  | none => none
  | some _ => some (.ok residueZipfile)

/-! Receive-side worker-output parsing (_handoff_recv, cloudlet_driver.py
lines 858-910). -/

/-- str.split(sep) on a single-character separator, Python semantics:
splits at every occurrence and keeps empty pieces; the result is never
empty. -/
def splitOnChar (c : Char) : List Char → List (List Char)
  | [] => [[]]
  | x :: xs =>
    let r := splitOnChar c xs
    if x = c then [] :: r
    else
      match r with
      | [] => [[x]]
      | y :: ys => (x :: y) :: ys

/-- Python str.split(sep) for a one-character separator. -/
def pySplit (sep : Char) (s : String) : List String :=
  (splitOnChar sep s.toList).map List.asString

/-- Python list[-1] on the never-empty result of str.split. -/
def pyLast (l : List String) : String := l.getLastD ""

/-- Python str.lower() for ASCII text. -/
def lowerChar (c : Char) : Char :=
  if 'A' ≤ c ∧ c ≤ 'Z' then Char.ofNat (c.toNat + 32) else c

/-- Python str.lower() for ASCII text. -/
def lowerString (s : String) : String :=
  (s.toList.map lowerChar).asString

/-- Python int(s) on a nonnegative decimal string (used by
_spawn_using_handoff on the parsed disk and memory sizes,
cloudlet_driver.py line 838). -/
def pyInt (s : String) : Option Nat :=
  let rec go : List Char → Nat → Option Nat
    | [], acc => some acc
    | c :: rest, acc =>
        if '0' ≤ c ∧ c ≤ '9' then go rest (acc * 10 + (c.toNat - 48))
        else none
  match s.toList with
  | [] => none
  | l => go l 0

/-- End of CloudletDriver._handoff_recv (cloudlet_driver.py lines
900-910): a nonzero worker exit code raises
HandoffError("Failed to receive handoff data"); on exit code 0 the last
stdout line is split on tabs into exactly five fields (a different arity
is a Python ValueError from the tuple unpack); the keyword field must
lowercase to "openstack" or HandoffError("Failed to parse returned data")
is raised; otherwise the four remaining fields are returned. -/
def parseHandoffRecvOutput (returncode : Int) (stdoutBuf : String) :
    Except CloudletErr (String × String × String × String) :=
  if returncode ≠ 0 then
    .error (.handoffError "Failed to receive handoff data")
  else
    match pySplit '\t' (pyLast (pySplit '\n' stdoutBuf)) with
    | [keyword, disksize, memorysize, diskMap, memMap] =>
        if lowerString keyword ≠ "openstack" then
          .error (.handoffError "Failed to parse returned data")
        else
          .ok (disksize, memorysize, diskMap, memMap)
    | _ => .error .valueError

/-! Temp-file lifecycle of both handoff roles (perform_vmhandoff and
_handoff_send on the send side, _spawn_using_handoff on the receive
side). -/

/-- Filesystem paths as component lists, so that recursive directory
removal is visible on contained files. -/
abbrev FsPath := List String

/-- Filesystem actions performed by the handoff code paths. -/
inductive FsAction where
  | mkdtemp (d : FsPath)
  | writeFile (p : FsPath)
  | rmtree (d : FsPath)
  | removeFile (p : FsPath)
  deriving DecidableEq, Repr

/-- The temp directory created by mkdtemp in _handoff_send (line 389). -/
def residueTmpDir : FsPath := ["cloudlet-residue-send"]

/-- The serialized HandoffDataSend request file (line 390). -/
def handoffDataFile : FsPath := ["cloudlet-residue-send", "handoff_data"]

/-- The residue package the worker writes for a file-scheme handoff
(lines 395-398). -/
def residueZipFile : FsPath := ["cloudlet-residue-send", "overlay.zip"]

/-- Paths created by _spawn_using_handoff (lines 819-825): the snapshot
temp directory from utils.tempdir, the launch disk and memory outputs
inside it, the mkdtemp directory for the receive request and the
serialized HandoffDataRecv file inside that. -/
def snapTmpDir : FsPath := ["snapshots-tmp"]

/-- Launch-disk output path of the receive side. -/
def launchDiskFile : FsPath := ["snapshots-tmp", "uuid-launch-disk"]

/-- Launch-memory output path of the receive side. -/
def launchMemFile : FsPath := ["snapshots-tmp", "uuid-launch-memory"]

/-- mkdtemp directory of the receive side (line 824). -/
def recvTmpDir : FsPath := ["cloudlet-residue-recv"]

/-- Serialized receive request file (line 825). -/
def recvDataFile : FsPath := ["cloudlet-residue-recv", "handoff-data"]

/-- Outcome of the send-side handoff as seen by perform_vmhandoff:
either _handoff_send returned, or it raised HandoffError somewhere after
creating its temp files (perform_vmhandoff then re-raises, lines
346-349). -/
inductive SendOutcome where
  | completed
  | raisedMidway
  deriving DecidableEq, Repr

/-- Filesystem trace of CloudletDriver._handoff_send (lines 388-445):
mkdtemp of the residue temp directory, serialization of the request file
(line 419), and for a file-scheme handoff the worker writes the residue
package.  The function has no try/finally and removes nothing itself. -/
def handoffSendFsTrace (fileScheme : Bool) (outcome : SendOutcome) :
    List FsAction :=
  [.mkdtemp residueTmpDir, .writeFile handoffDataFile] ++
    match outcome with
    | .raisedMidway => []
    | .completed => if fileScheme then [.writeFile residueZipFile] else []

/-- Filesystem trace of CloudletDriver.perform_vmhandoff (lines 302-370)
around _handoff_send: on success with a file-scheme handoff the residue
package is uploaded to glance and then removed (lines 369-370); when
_handoff_send raised, the error is re-raised as ImageNotFound with no
cleanup (lines 346-349). -/
def performVmhandoffFsTrace (fileScheme : Bool) (outcome : SendOutcome) :
    List FsAction :=
  handoffSendFsTrace fileScheme outcome ++
    match outcome with
    | .raisedMidway => []
    | .completed => if fileScheme then [.removeFile residueZipFile] else []

/-- Filesystem trace of CloudletDriver._spawn_using_handoff (lines
816-856): utils.tempdir creates the snapshot temp directory, mkdtemp
creates the receive temp directory, the request file is serialized into
it, and on success the worker writes the launch disk and memory.  The
finally block (lines 849-855) removes the receive temp directory tree
and the launch files whether or not _handoff_recv raised, and the
utils.tempdir context manager removes the snapshot temp directory on
exit. -/
def spawnUsingHandoffFsTrace (recvOk : Bool) : List FsAction :=
  [.mkdtemp snapTmpDir, .mkdtemp recvTmpDir, .writeFile recvDataFile] ++
    (if recvOk then [.writeFile launchDiskFile, .writeFile launchMemFile] else []) ++
    [.rmtree recvTmpDir] ++
    (if recvOk then [.removeFile launchDiskFile, .removeFile launchMemFile] else []) ++
    [.rmtree snapTmpDir]

/-- The path a filesystem action creates, if any. -/
def FsAction.createdPath : FsAction → Option FsPath
  | .mkdtemp d => some d
  | .writeFile p => some p
  | _ => none

/-- All paths created along a trace. -/
def createdPaths (tr : List FsAction) : List FsPath :=
  tr.filterMap FsAction.createdPath

/-- Whether an action removes a path: removeFile removes exactly its
argument, rmtree removes its directory and everything below it. -/
def removesPath (a : FsAction) (p : FsPath) : Bool :=
  match a with
  | .removeFile q => q == p
  | .rmtree d => List.isPrefixOf d p
  | _ => false

/-- Whether some action in the trace removes the path. -/
def removedBy (tr : List FsAction) (p : FsPath) : Bool :=
  tr.any (removesPath · p)

/-! Destination negotiation (CloudletAPI._prepare_handoff_dest,
cloudlet_api.py lines 315-407). -/

/-- One entry of the destination flavor catalog as consumed by
find_matching_flavor: vcpus and ram already converted through int(), the
first link href and the flavor id. -/
structure Flavor where
  vcpus : Int
  ram : Int
  linkHref : String
  flavorId : String
  deriving DecidableEq, Repr

/-- find_matching_flavor (cloudlet_api.py lines 361-369): scans the
flavor list in order and returns the link href and id of the first
flavor whose vcpus and ram both equal the requested values; returns
(None, None) when no flavor matches exactly. -/
def find_matching_flavor (flavorList : List Flavor) (cpuCount memoryMb : Int) :
    Option String × Option String :=
  match flavorList with
  | [] => (none, none)
  | flavor :: rest =>
      if flavor.vcpus = cpuCount ∧ flavor.ram = memoryMb then
        (some flavor.linkHref, some flavor.flavorId)
      else
        find_matching_flavor rest cpuCount memoryMb

/-- The flavor step of _prepare_handoff_dest (lines 370-376): when
find_matching_flavor returns (None, None) a
HandoffError("Cannot find matching flavor") is raised. -/
def flavorNegotiation (flavorList : List Flavor) (cpuCount memoryMb : Int) :
    Except CloudletErr (String × String) :=
  match find_matching_flavor flavorList cpuCount memoryMb with
  | (some ref, some fid) => .ok (ref, fid)
  | _ => .error (.handoffError "Cannot find matching flavor")

/-- One entry of the destination network catalog. -/
structure NetworkItem where
  projectId : String
  name : String
  netId : String
  deriving DecidableEq, Repr

/-- The network loop of _prepare_handoff_dest (cloudlet_api.py lines
348-354), embedded exactly as written: entries of other projects are
skipped; for each entry of the target project the local variable
network_uuid is reassigned, first to None and then to the entry id when
the name matches the requested network.  The outer none models the
Python local never having been assigned (the list held no entry of the
target project), which makes the check after the loop a NameError. -/
def selectNetworkVar (networkList : List NetworkItem) (projectId : String)
    (destNetwork : Option String) : Option (Option String) :=
  networkList.foldl
    (fun acc item =>
      if item.projectId ≠ projectId then acc
      else if some item.name = destNetwork then some (some item.netId)
      else some none)
    none

/-- The network step of _prepare_handoff_dest including the check at
lines 355-358: network_uuid still None raises
HandoffError("Cannot find Networking"). -/
def networkNegotiation (networkList : List NetworkItem) (projectId : String)
    (destNetwork : Option String) : Except CloudletErr String :=
  match selectNetworkVar networkList projectId destNetwork with
  | none => .error .nameError
  | some none => .error (.handoffError "Cannot find Networking")
  | some (some uuid) => .ok uuid

/-! Base creation (CloudletAPI.cloudlet_create_base, cloudlet_api.py
lines 125-210). -/

/-- cloudlet_type property value for the base disk image. -/
def IMAGE_TYPE_BASE_DISK : String := "cloudlet_base_disk"

/-- cloudlet_type property value for the base memory image. -/
def IMAGE_TYPE_BASE_MEM : String := "cloudlet_base_memory"

/-- cloudlet_type property value for the base disk hash image. -/
def IMAGE_TYPE_BASE_DISK_HASH : String := "cloudlet_base_disk_hash"

/-- cloudlet_type property value for the base memory hash image. -/
def IMAGE_TYPE_BASE_MEM_HASH : String := "cloudlet_base_memory_hash"

/-- A glance image record as created by _cloudlet_create_image,
restricted to the fields the claims speak about: the image name, the
cloudlet_type property and the base_sha256_uuid property. -/
structure ImageRecord where
  name : String
  cloudletType : String
  baseSha256Uuid : String
  deriving DecidableEq, Repr

/-- CloudletAPI.cloudlet_create_base (cloudlet_api.py lines 125-210),
restricted to image creation and task-state changes.  `sha256hex`
abstracts hashlib.sha256(str(...)).hexdigest(), an external hash whose
value the embedding does not recompute; the code applies it to the
instance uuid (line 136).  Four images are created, in source order
mem, disk-hash, mem-hash, disk (lines 167-191), every one carrying the
same base_sha256_uuid property; the instance task state is then set to
image_snapshot exactly once (line 193) before the RPC call.  The second
component lists the task-state assignments performed. -/
def cloudletCreateBase (sha256hex : String → String)
    (instanceUuid baseName : String) : List ImageRecord × List String :=
  let baseSha := sha256hex instanceUuid
  let memRec : ImageRecord :=
    { name := baseName ++ "-mem", cloudletType := IMAGE_TYPE_BASE_MEM,
      baseSha256Uuid := baseSha }
  let diskhashRec : ImageRecord :=
    { name := baseName ++ "-disk-meta", cloudletType := IMAGE_TYPE_BASE_DISK_HASH,
      baseSha256Uuid := baseSha }
  let memhashRec : ImageRecord :=
    { name := baseName ++ "-mem-meta", cloudletType := IMAGE_TYPE_BASE_MEM_HASH,
      baseSha256Uuid := baseSha }
  let diskRec : ImageRecord :=
    { name := baseName ++ "-disk", cloudletType := IMAGE_TYPE_BASE_DISK,
      baseSha256Uuid := baseSha }
  ([memRec, diskhashRec, memhashRec, diskRec], ["image_snapshot"])

/-! Port forwarding tunnel (class PortForwarding, cloudlet_api.py lines
446-483). -/

/-- The byte count passed to source.recv in PortForwarding.forward
(cloudlet_api.py line 478). -/
def FORWARD_RECV_CHUNK : Nat := 32384

/-- PortForwarding.forward (cloudlet_api.py lines 476-482) applied to the
successive results of source.recv: every nonempty chunk is sent on to
the destination at once and the loop continues; an empty read invokes
the callback and breaks.  Returns the chunks forwarded and whether the
callback ran; a trace ending without an empty read models a relay still
blocked in recv. -/
def forwardRelay : List String → List String × Bool
  | [] => ([], false)
  | d :: rest =>
      if d = "" then ([], true)
      else
        let (sent, cb) := forwardRelay rest
        (d :: sent, cb)

/-- Which callback each relay direction is given in
PortForwarding.port_forwarding (cloudlet_api.py lines 470-471):
forward(client, server, self.closed_callback) for the
client-to-destination direction and forward(server, client) with the
default no-op callback for the destination-to-client direction. -/
inductive RelayCallback where
  | closedCallback
  | noCallback
  deriving DecidableEq, Repr

/-- PortForwarding.port_forwarding run over the two recv streams: the
forwarded chunks of each direction, and the number of invocations of
self.closed_callback (counted only where port_forwarding passes it). -/
def portForwardingRun (clientChunks serverChunks : List String) :
    List String × List String × Nat :=
  let r1 := forwardRelay clientChunks
  let r2 := forwardRelay serverChunks
  (r1.1, r2.1, if r1.2 then 1 else 0)

/-! Handoff dispatch (CloudletAPI.cloudlet_handoff, cloudlet_api.py
lines 260-313). -/

/-- urlsplit(url).scheme for the URL shapes used by cloudlet_handoff:
the text before the first colon, or empty when the URL has no colon. -/
def urlsplitScheme (url : String) : String :=
  match splitOnChar ':' url.toList with
  | s :: _ :: _ => List.asString s
  | _ => ""

/-- The handoff destination address parsed out of the negotiation reply
(ret_value["handoff"], cloudlet_api.py lines 296-301). -/
structure HandoffDestAddr where
  serverIp : String
  serverPort : String
  deriving DecidableEq, Repr

/-- The RPC dispatch to the compute host at the end of cloudlet_handoff
(lines 304-312). -/
inductive RpcAction where
  | castHandoff (handoffUrl : String) (residueGlanceId : Option String)
  deriving DecidableEq, Repr

/-- CloudletAPI.cloudlet_handoff (cloudlet_api.py lines 260-313).
`createdResidueImageId` models the id of the glance image
_cloudlet_create_image returns on the file branch; `negotiationReply`
models ret_value.get("handoff", None) of the http negotiation.  The file
scheme creates the residue image and dispatches with its id, returning
it; the http scheme negotiates, raises HandoffError before any dispatch
when the reply has no handoff entry, and otherwise rewrites the handoff
URL to tcp://ip:port and dispatches with no residue id; every other
scheme (tcp) dispatches the URL unchanged with no residue id and returns
None. -/
def cloudletHandoff (handoffUrl : String) (createdResidueImageId : String)
    (negotiationReply : Option HandoffDestAddr) :
    Except CloudletErr (Option String) × List RpcAction :=
  let scheme := urlsplitScheme handoffUrl
  if scheme = "file" then
    (.ok (some createdResidueImageId),
     [.castHandoff handoffUrl (some createdResidueImageId)])
  else if scheme = "http" then
    match negotiationReply with
    | none =>
        (.error (.handoffError "Cannot get handoff URL from the destination message"), [])
    | some addr =>
        let newUrl := "tcp://" ++ addr.serverIp ++ ":" ++ addr.serverPort
        (.ok none, [.castHandoff newUrl none])
  else
    (.ok none, [.castHandoff handoffUrl none])

/-- A registry with no sessions at all, input for the create_overlay_vm
session-check witness. -/
def c7Registry : Registry :=
  { resumed_vm_dict := [], synthesized_vm_dics := [] }

/-- Destination network catalog containing a matching network for the
target project followed by a further network of the same project,
counterexample input for the network negotiation claim. -/
def c6Networks : List NetworkItem :=
  [{ projectId := "proj", name := "net-A", netId := "uuid-A" },
   { projectId := "proj", name := "net-B", netId := "uuid-B" }]

/-! Helper lemmas about the dict embedding. -/

theorem dictGet_dictDel_self {α : Type} (d : Dict α) (k : String) :
    dictGet (dictDel d k) k = none := by
  induction d with
  | nil => rfl
  | cons kv rest ih =>
      obtain ⟨k1, v⟩ := kv
      by_cases h : k1 = k
      · simpa [dictDel, h] using ih
      · simpa [dictDel, dictGet, h] using ih

theorem dictGet_dictDel_ne {α : Type} (d : Dict α) (k k2 : String)
    (h : k ≠ k2) : dictGet (dictDel d k) k2 = dictGet d k2 := by
  induction d with
  | nil => rfl
  | cons kv rest ih =>
      obtain ⟨k1, v⟩ := kv
      by_cases h1 : k1 = k
      · subst h1
        simpa [dictDel, dictGet, h] using ih
      · by_cases h2 : k1 = k2
        · simp [dictDel, dictGet, h1, h2, Ne.symm h]
        · simpa [dictDel, dictGet, h1, h2] using ih

theorem dictGet_dictSet_self {α : Type} (d : Dict α) (k : String) (v : α) :
    dictGet (dictSet d k v) k = some v := by
  induction d with
  | nil => simp [dictSet, dictGet]
  | cons kv rest ih =>
      obtain ⟨k1, w⟩ := kv
      by_cases h : k1 = k
      · simp [dictSet, dictGet, h]
      · simpa [dictSet, dictGet, h] using ih

theorem dictGet_dictSet_ne {α : Type} (d : Dict α) (k k2 : String) (v : α)
    (h : k ≠ k2) : dictGet (dictSet d k v) k2 = dictGet d k2 := by
  induction d with
  | nil => simp [dictSet, dictGet, fun hh => h hh]
  | cons kv rest ih =>
      obtain ⟨k1, w⟩ := kv
      by_cases h1 : k1 = k
      · subst h1
        simp [dictSet, dictGet, h]
      · by_cases h2 : k1 = k2
        · simp [dictSet, dictGet, h1, h2, Ne.symm h]
        · simpa [dictSet, dictGet, h1, h2] using ih

/-! Helper lemmas about the relay loop. -/

theorem forwardRelay_sent (chunks : List String) :
    (forwardRelay chunks).1 = chunks.takeWhile (fun c => c != "") := by
  induction chunks with
  | nil => rfl
  | cons d rest ih =>
      by_cases h : d = ""
      · simp [forwardRelay, h, List.takeWhile_cons]
      · simp [forwardRelay, h, List.takeWhile_cons, ih]

theorem forwardRelay_cb (chunks : List String) :
    (forwardRelay chunks).2 = true ↔ "" ∈ chunks := by
  induction chunks with
  | nil => simp [forwardRelay]
  | cons d rest ih =>
      by_cases h : d = ""
      · simp [forwardRelay, h]
      · simp [forwardRelay, h, ih, Ne.symm h]

/-! Helper lemmas about flavor matching. -/

theorem find_matching_flavor_sound (fl : List Flavor) (cpu mem : Int)
    (ref fid : String)
    (h : find_matching_flavor fl cpu mem = (some ref, some fid)) :
    ∃ f ∈ fl, f.vcpus = cpu ∧ f.ram = mem ∧ f.linkHref = ref ∧
      f.flavorId = fid := by
  induction fl with
  | nil => simp [find_matching_flavor] at h
  | cons f rest ih =>
      by_cases hc : f.vcpus = cpu ∧ f.ram = mem
      · refine ⟨f, by simp, hc.1, hc.2, ?_⟩
        simp [find_matching_flavor, hc] at h
        exact ⟨h.1, h.2⟩
      · rw [find_matching_flavor, if_neg hc] at h
        obtain ⟨g, hg, hprop⟩ := ih h
        exact ⟨g, by simp [hg], hprop⟩

theorem find_matching_flavor_none (fl : List Flavor) (cpu mem : Int)
    (h : ∀ f ∈ fl, ¬(f.vcpus = cpu ∧ f.ram = mem)) :
    find_matching_flavor fl cpu mem = (none, none) := by
  induction fl with
  | nil => rfl
  | cons f rest ih =>
      rw [find_matching_flavor, if_neg (h f (by simp))]
      exact ih fun g hg => h g (by simp [hg])

theorem find_matching_flavor_complete (fl : List Flavor) (cpu mem : Int)
    (f : Flavor) (hf : f ∈ fl) (hc : f.vcpus = cpu ∧ f.ram = mem) :
    ∃ ref fid, find_matching_flavor fl cpu mem = (some ref, some fid) := by
  induction fl with
  | nil => simp at hf
  | cons g rest ih =>
      by_cases hg : g.vcpus = cpu ∧ g.ram = mem
      · exact ⟨g.linkHref, g.flavorId, by rw [find_matching_flavor, if_pos hg]⟩
      · rcases List.mem_cons.mp hf with hfg | hfr
        · exact absurd (hfg ▸ hc) hg
        · obtain ⟨ref, fid, hres⟩ := ih hfr
          exact ⟨ref, fid, by rw [find_matching_flavor, if_neg hg]; exact hres⟩

/-! Claim theorems. -/

/-- C1, counterexample: the claim says consuming a session for
handoff-send removes it from the registry atomically with the start of
the operation, so that a peek during the operation reports NotFound.  In
perform_vmhandoff the deletion happens at line 351, only after
_handoff_send has returned: with one synthesized session registered for
vm-1, a peek while the handoff send is in flight still finds the
session. -/
theorem perform_vmhandoff_session_visible_during_send :
    dictGet c1Registry.synthesized_vm_dics "vm-1" = some ⟨0⟩ ∧
    ¬ dictGet (performVmhandoffRegistryAt c1Registry "vm-1"
        .duringHandoffSend).synthesized_vm_dics "vm-1" = none := by
  decide

/-- C1, amended: overlay synthesis consumes the session before creating
the overlay, so a take followed by a peek reports NotFound; handoff-send
deletes the session only after the transfer worker has finished — during
the send the session is still registered — and after that deletion a
peek reports NotFound; the at-most-one-session-per-id invariant is
preserved by every registry operation (registration assumed only for ids
with no session of either variant). -/
theorem session_registry_consume_semantics (reg : Registry) (uuid : String) :
    dictGet (createOverlayRegistryAt reg uuid
        .duringCreateOverlay).resumed_vm_dict uuid = none
  ∧ dictGet (performVmhandoffRegistryAt reg uuid
        .afterConsume).synthesized_vm_dics uuid = none
  ∧ (∀ s, dictGet reg.synthesized_vm_dics uuid = some s →
      dictGet (performVmhandoffRegistryAt reg uuid
        .duringHandoffSend).synthesized_vm_dics uuid = some s)
  ∧ (reg.atMostOneSession →
      ∀ p, (performVmhandoffRegistryAt reg uuid p).atMostOneSession)
  ∧ (reg.atMostOneSession →
      ∀ p, (createOverlayRegistryAt reg uuid p).atMostOneSession)
  ∧ (reg.atMostOneSession → (destroyCleanup reg uuid).atMostOneSession)
  ∧ (reg.atMostOneSession →
      dictGet reg.resumed_vm_dict uuid = none →
      dictGet reg.synthesized_vm_dics uuid = none →
      ∀ mode s, (spawnRegister reg uuid mode s).atMostOneSession) := by
  refine ⟨dictGet_dictDel_self _ _, dictGet_dictDel_self _ _,
    fun s hs => hs, ?_, ?_, ?_, ?_⟩
  · intro hwf p uuid2
    cases p <;> simp only [performVmhandoffRegistryAt]
    · exact hwf uuid2
    · exact hwf uuid2
    · by_cases h : uuid = uuid2
      · exact Or.inr (h ▸ dictGet_dictDel_self _ _)
      · rcases hwf uuid2 with hres | hsyn
        · exact Or.inl hres
        · exact Or.inr ((dictGet_dictDel_ne _ _ _ h).trans hsyn)
    · by_cases h : uuid = uuid2
      · exact Or.inr (h ▸ dictGet_dictDel_self _ _)
      · rcases hwf uuid2 with hres | hsyn
        · exact Or.inl hres
        · exact Or.inr ((dictGet_dictDel_ne _ _ _ h).trans hsyn)
  · intro hwf p uuid2
    cases p <;> simp only [createOverlayRegistryAt]
    · exact hwf uuid2
    all_goals
      by_cases h : uuid = uuid2
      · exact Or.inl (h ▸ dictGet_dictDel_self _ _)
      · rcases hwf uuid2 with hres | hsyn
        · exact Or.inl ((dictGet_dictDel_ne _ _ _ h).trans hres)
        · exact Or.inr hsyn
  · intro hwf uuid2
    by_cases h : uuid = uuid2
    · exact Or.inl (h ▸ dictGet_dictDel_self _ _)
    · rcases hwf uuid2 with hres | hsyn
      · exact Or.inl ((dictGet_dictDel_ne _ _ _ h).trans hres)
      · exact Or.inr ((dictGet_dictDel_ne _ _ _ h).trans hsyn)
  · intro hwf hres hsyn mode s uuid2
    by_cases h : uuid = uuid2
    · subst h
      cases mode <;> simp only [spawnRegister]
      · exact Or.inl hres
      · exact Or.inl hres
      · exact Or.inr hsyn
      · exact hwf uuid
    · cases mode <;> simp only [spawnRegister]
      · rcases hwf uuid2 with h1 | h2
        · exact Or.inl h1
        · exact Or.inr ((dictGet_dictSet_ne _ _ _ _ h).trans h2)
      · rcases hwf uuid2 with h1 | h2
        · exact Or.inl h1
        · exact Or.inr ((dictGet_dictSet_ne _ _ _ _ h).trans h2)
      · rcases hwf uuid2 with h1 | h2
        · exact Or.inl ((dictGet_dictSet_ne _ _ _ _ h).trans h1)
        · exact Or.inr h2
      · exact hwf uuid2

/-- C1, witness for the amended theorem at a concrete registry. -/
theorem session_registry_consume_semantics_witness :
    dictGet (performVmhandoffRegistryAt c1Registry "vm-1"
        .duringHandoffSend).synthesized_vm_dics "vm-1" = some ⟨0⟩ :=
  (session_registry_consume_semantics c1Registry "vm-1").2.2.1 ⟨0⟩ (by decide)

/-- C2: the claim says a nonzero worker exit makes the send-role handoff
fail with the exit code of the worker.  The polling loop of _handoff_send
stops as soon as proc.poll() returns any exit code and the function then
returns the residue path as a success; with the worker exiting with code
1 (or 3) the result is still a plain success, so the failure is not
propagated. -/
theorem handoff_send_ignores_worker_exit_code :
    handoffSendResult [⟨none, "migration progress"⟩, ⟨some 1, ""⟩]
        (some "overlay.zip") = some (.ok (some "overlay.zip"))
  ∧ handoffSendResult [⟨some 3, ""⟩] none = some (.ok none)
  ∧ waitForHandoffSend [⟨none, "migration progress"⟩, ⟨some 1, ""⟩] = some 1 :=
  ⟨rfl, rfl, rfl⟩

/-- C7: create_overlay_vm raises InstanceNotRunning when the hypervisor
domain is absent, and when no resumed-base session is registered for the
instance uuid; in both cases no overlay is created, uploaded or removed. -/
theorem create_overlay_vm_requires_running_session (reg : Registry)
    (uuid : String) :
    createOverlayVm false reg uuid = (.error (.instanceNotRunning uuid), [])
  ∧ (dictGet reg.resumed_vm_dict uuid = none →
      createOverlayVm true reg uuid = (.error (.instanceNotRunning uuid), [])) := by
  constructor
  · rfl
  · intro h
    simp [createOverlayVm, h]

/-- C7, witness: at the empty registry the session lookup fails and
create_overlay_vm aborts with no overlay action. -/
theorem create_overlay_vm_requires_running_session_witness :
    createOverlayVm true c7Registry "vm-9"
      = (.error (.instanceNotRunning "vm-9"), []) :=
  (create_overlay_vm_requires_running_session c7Registry "vm-9").2 (by decide)

/-- C3: on worker exit 0, the last stdout line of the receive worker is
split on tabs into keyword, disk size, memory size and the two overlay
maps; for a five-field line the parse succeeds exactly when the keyword
lowercases to "openstack", the documented OPENSTACK line yields the two
sizes, the BADKEY line fails with the malformed-output HandoffError, and
every nonzero exit code fails with HandoffError. -/
theorem handoff_recv_output_parsing (out k d m dm mm : String)
    (hsplit : pySplit '\t' (pyLast (pySplit '\n' out)) = [k, d, m, dm, mm]) :
    (lowerString k = "openstack" →
        parseHandoffRecvOutput 0 out = .ok (d, m, dm, mm))
  ∧ (lowerString k ≠ "openstack" →
      parseHandoffRecvOutput 0 out =
        .error (.handoffError "Failed to parse returned data"))
  ∧ parseHandoffRecvOutput 0 "OPENSTACK\t10737418240\t1073741824\t{}\t{}"
      = .ok ("10737418240", "1073741824", "{}", "{}")
  ∧ pyInt "10737418240" = some 10737418240
  ∧ pyInt "1073741824" = some 1073741824
  ∧ parseHandoffRecvOutput 0 "BADKEY\t1\t1\t{}\t{}"
      = .error (.handoffError "Failed to parse returned data")
  ∧ (∀ (rc : Int) (res : String), rc ≠ 0 →
      parseHandoffRecvOutput rc res
        = .error (.handoffError "Failed to receive handoff data")) := by
  refine ⟨?_, ?_, by decide, by decide, by decide, by decide, ?_⟩
  · intro hk
    simp [parseHandoffRecvOutput, hsplit, hk]
  · intro hk
    simp [parseHandoffRecvOutput, hsplit, hk]
  · intro rc res hrc
    simp [parseHandoffRecvOutput, hrc]

/-- C3, witness at the documented OPENSTACK line. -/
theorem handoff_recv_output_parsing_witness :
    parseHandoffRecvOutput 0 "OPENSTACK\t10737418240\t1073741824\t{}\t{}"
      = .ok ("10737418240", "1073741824", "{}", "{}")
  ∧ parseHandoffRecvOutput 1 "anything"
      = .error (.handoffError "Failed to receive handoff data") :=
  ⟨(handoff_recv_output_parsing "OPENSTACK\t10737418240\t1073741824\t{}\t{}"
      "OPENSTACK" "10737418240" "1073741824" "{}" "{}" (by decide)).1 (by decide),
   (handoff_recv_output_parsing "OPENSTACK\t10737418240\t1073741824\t{}\t{}"
      "OPENSTACK" "10737418240" "1073741824" "{}" "{}"
      (by decide)).2.2.2.2.2.2 1 "anything" (by decide)⟩

/-- C4, counterexample: on the send role even the successful exit path
leaves the serialized request file and its mkdtemp directory in place —
perform_vmhandoff only removes the residue package itself —so the claim
that every temporary file and directory is removed on every exit path
fails on the send role. -/
theorem handoff_send_leaks_request_tempdir :
    handoffDataFile ∈ createdPaths (performVmhandoffFsTrace true .completed)
  ∧ residueTmpDir ∈ createdPaths (performVmhandoffFsTrace true .completed)
  ∧ removedBy (performVmhandoffFsTrace true .completed) handoffDataFile = false
  ∧ removedBy (performVmhandoffFsTrace true .completed) residueTmpDir = false := by
  decide

/-- C4, amended: on the receive role every temporary path created by
_spawn_using_handoff is removed on both exit paths (worker success or
HandoffError), via the finally block and the tempdir context manager; on
the send role only the residue package is ever removed — exactly on the
successful file-scheme path — while the request file and its temporary
directory are removed on no path at all. -/
theorem handoff_tempfile_cleanup (recvOk fs : Bool) (oc : SendOutcome) :
    (∀ p ∈ createdPaths (spawnUsingHandoffFsTrace recvOk),
        removedBy (spawnUsingHandoffFsTrace recvOk) p = true)
  ∧ (removedBy (performVmhandoffFsTrace fs oc) residueZipFile = true ↔
      (fs = true ∧ oc = .completed))
  ∧ removedBy (performVmhandoffFsTrace fs oc) handoffDataFile = false
  ∧ removedBy (performVmhandoffFsTrace fs oc) residueTmpDir = false := by
  cases recvOk <;> cases fs <;> cases oc <;>
    exact ⟨by decide, by decide, by decide, by decide⟩

/-- C4, witness: the receive-side request file is removed (through the
rmtree of its directory) on the successful path. -/
theorem handoff_tempfile_cleanup_witness :
    removedBy (spawnUsingHandoffFsTrace true) recvDataFile = true :=
  (handoff_tempfile_cleanup true true .completed).1 recvDataFile (by decide)

/-- C5: the negotiation selects a flavor only when its vcpus and ram both
exactly equal the requested pair; whenever some catalog flavor matches
exactly a flavor is selected, and when no flavor matches exactly the
negotiation fails with the matching-flavor HandoffError — a nearest
non-exact match is never selected. -/
theorem flavor_negotiation_exact_match (fl : List Flavor) (cpu mem : Int) :
    (∀ ref fid, flavorNegotiation fl cpu mem = .ok (ref, fid) →
        ∃ f ∈ fl, f.vcpus = cpu ∧ f.ram = mem ∧ f.linkHref = ref ∧
          f.flavorId = fid)
  ∧ ((∀ f ∈ fl, ¬(f.vcpus = cpu ∧ f.ram = mem)) →
      flavorNegotiation fl cpu mem =
        .error (.handoffError "Cannot find matching flavor"))
  ∧ (∀ f ∈ fl, (f.vcpus = cpu ∧ f.ram = mem) →
      ∃ r, flavorNegotiation fl cpu mem = .ok r) := by
  refine ⟨?_, ?_, ?_⟩
  · intro ref fid h
    rcases hm : find_matching_flavor fl cpu mem with ⟨r1, r2⟩
    unfold flavorNegotiation at h
    rw [hm] at h
    cases r1 with
    | none => exact Except.noConfusion h
    | some a =>
        cases r2 with
        | none => exact Except.noConfusion h
        | some b =>
            simp only [Except.ok.injEq, Prod.mk.injEq] at h
            obtain ⟨h1, h2⟩ := h
            subst h1
            subst h2
            exact find_matching_flavor_sound fl cpu mem a b hm
  · intro hnone
    rw [flavorNegotiation, find_matching_flavor_none fl cpu mem hnone]
  · intro f hf hc
    obtain ⟨ref, fid, hm⟩ := find_matching_flavor_complete fl cpu mem f hf hc
    exact ⟨(ref, fid), by rw [flavorNegotiation, hm]⟩

/-- C5, witness: the catalog holding exactly the (2, 4096) flavor serves
a (2, 4096) request, and a catalog holding only (4, 8192) makes the same
request fail with the matching-flavor error. -/
theorem flavor_negotiation_exact_match_witness :
    flavorNegotiation [⟨4, 8192, "href-4-8192", "f-big"⟩] 2 4096
      = .error (.handoffError "Cannot find matching flavor")
  ∧ ∃ r, flavorNegotiation [⟨2, 4096, "href-2-4096", "f-exact"⟩] 2 4096
      = .ok r :=
  ⟨(flavor_negotiation_exact_match [⟨4, 8192, "href-4-8192", "f-big"⟩]
      2 4096).2.1 (by decide),
   (flavor_negotiation_exact_match [⟨2, 4096, "href-2-4096", "f-exact"⟩]
      2 4096).2.2 ⟨2, 4096, "href-2-4096", "f-exact"⟩ (by decide) (by decide)⟩

/-- C6: the claim says a project-owned network whose name equals the
requested one is found wherever it sits in the catalog.  The loop in
_prepare_handoff_dest re-initialises its local to None on every
project-owned entry and never breaks, so a catalog in which the matching
network is followed by another network of the same project makes the
negotiation raise HandoffError although the match is present. -/
theorem network_negotiation_match_shadowed :
    (∃ item ∈ c6Networks, item.projectId = "proj" ∧ item.name = "net-A")
  ∧ networkNegotiation c6Networks "proj" (some "net-A")
      = .error (.handoffError "Cannot find Networking") := by
  decide

/-- C8: cloudlet_create_base creates exactly four image records carrying
the names base_name-mem, base_name-disk-meta, base_name-mem-meta and
base_name-disk, every one tagged with the same base hash — the hex
digest the external sha256 produces from the instance uuid — and the
instance task state is set to image-snapshot exactly once. -/
theorem cloudlet_create_base_artifacts (f : String → String)
    (instanceUuid baseName : String) :
    (cloudletCreateBase f instanceUuid baseName).1.map ImageRecord.name
      = [baseName ++ "-mem", baseName ++ "-disk-meta",
         baseName ++ "-mem-meta", baseName ++ "-disk"]
  ∧ (cloudletCreateBase f instanceUuid baseName).1.length = 4
  ∧ (∀ r ∈ (cloudletCreateBase f instanceUuid baseName).1,
      r.baseSha256Uuid = f instanceUuid)
  ∧ (cloudletCreateBase f instanceUuid baseName).2 = ["image_snapshot"] := by
  refine ⟨rfl, rfl, ?_, rfl⟩
  intro r hr
  simp only [cloudletCreateBase, List.mem_cons, List.not_mem_nil, or_false] at hr
  rcases hr with h | h | h | h <;> subst h <;> rfl

/-- C8, witness at a concrete base name and uuid. -/
theorem cloudlet_create_base_artifacts_witness :
    (cloudletCreateBase (fun s => s ++ "-sha") "inst-7" "mybase").1.length = 4
  ∧ ({ name := "mybase" ++ "-mem", cloudletType := IMAGE_TYPE_BASE_MEM,
        baseSha256Uuid := "inst-7-sha" } : ImageRecord).baseSha256Uuid
      = (fun s => s ++ "-sha") "inst-7" :=
  ⟨(cloudlet_create_base_artifacts (fun s => s ++ "-sha") "inst-7" "mybase").2.1,
   (cloudlet_create_base_artifacts (fun s => s ++ "-sha") "inst-7"
      "mybase").2.2.1 _ (by decide)⟩

/-- C9: each relay direction forwards exactly the chunks read before the
first zero-length read, in order; every read is bounded by the fixed
32384-byte chunk size, so every forwarded chunk is too; the callback of
a direction fires exactly when that direction sees a zero-length read;
and the closed_callback count of the tunnel depends only on the
client-to-destination stream — port_forwarding passes closed_callback
only to that direction, the other direction gets the no-op default. -/
theorem port_forwarding_relay_semantics (chunks clientChunks s1 s2 :
    List String) :
    (forwardRelay chunks).1 = chunks.takeWhile (fun c => c != "")
  ∧ ((forwardRelay chunks).2 = true ↔ "" ∈ chunks)
  ∧ ((∀ c ∈ chunks, c.length ≤ FORWARD_RECV_CHUNK) →
      ∀ c ∈ (forwardRelay chunks).1, c.length ≤ FORWARD_RECV_CHUNK)
  ∧ (portForwardingRun clientChunks s1).2.2
      = (portForwardingRun clientChunks s2).2.2
  ∧ ((portForwardingRun clientChunks s1).2.2 = 1 ↔ "" ∈ clientChunks) := by
  refine ⟨forwardRelay_sent chunks, forwardRelay_cb chunks, ?_, rfl, ?_⟩
  · intro hb c hc
    rw [forwardRelay_sent chunks] at hc
    exact hb c ((List.takeWhile_sublist _).subset hc)
  · show (if (forwardRelay clientChunks).2 then 1 else 0) = 1 ↔ "" ∈ clientChunks
    rcases hcb : (forwardRelay clientChunks).2 with _ | _
    · simpa [hcb] using (forwardRelay_cb clientChunks)
    · simpa [hcb] using (forwardRelay_cb clientChunks)

/-- C9, witness: a client stream closing after one bounded chunk fires
the closed_callback exactly once, and the chunk is within the recv
bound. -/
theorem port_forwarding_relay_semantics_witness :
    "ab".length ≤ FORWARD_RECV_CHUNK
  ∧ (portForwardingRun ["ab", ""] ["xyz"]).2.2 = 1 :=
  ⟨(port_forwarding_relay_semantics ["ab"] ["ab", ""] ["xyz"] []).2.2.1
      (by decide) "ab" (by decide),
   (port_forwarding_relay_semantics ["ab"] ["ab", ""] ["xyz"] []).2.2.2.2.mpr
      (by decide)⟩

/-- C10: a file-scheme handoff returns the id of the residue image it
created and dispatches it to the compute host; a tcp-scheme handoff
dispatches the URL unchanged and returns None; an http-scheme handoff
whose negotiation reply lacks a handoff entry raises HandoffError with
no dispatch at all, and with a handoff entry dispatches the rewritten
tcp URL and returns None. -/
theorem cloudlet_handoff_scheme_dispatch (url imgId : String)
    (reply : Option HandoffDestAddr) :
    (urlsplitScheme url = "file" →
        cloudletHandoff url imgId reply
          = (.ok (some imgId), [.castHandoff url (some imgId)]))
  ∧ (urlsplitScheme url = "tcp" →
      cloudletHandoff url imgId reply = (.ok none, [.castHandoff url none]))
  ∧ (urlsplitScheme url = "http" → reply = none →
      cloudletHandoff url imgId reply
        = (.error (.handoffError
            "Cannot get handoff URL from the destination message"), []))
  ∧ (∀ addr, urlsplitScheme url = "http" → reply = some addr →
      cloudletHandoff url imgId reply
        = (.ok none,
           [.castHandoff
              ("tcp://" ++ addr.serverIp ++ ":" ++ addr.serverPort) none])) := by
  refine ⟨?_, ?_, ?_, ?_⟩
  · intro h
    simp [cloudletHandoff, h]
  · intro h
    simp [cloudletHandoff, h]
  · intro h hr
    subst hr
    simp [cloudletHandoff, h]
  · intro addr h hr
    subst hr
    simp [cloudletHandoff, h]

/-- C10, witness at one concrete URL of each scheme. -/
theorem cloudlet_handoff_scheme_dispatch_witness :
    cloudletHandoff "file://dest-vm" "img-1" none
      = (.ok (some "img-1"), [.castHandoff "file://dest-vm" (some "img-1")])
  ∧ cloudletHandoff "http://dest" "img-1" none
      = (.error (.handoffError
          "Cannot get handoff URL from the destination message"), [])
  ∧ cloudletHandoff "tcp://10.0.0.5:8022" "img-1" none
      = (.ok none, [.castHandoff "tcp://10.0.0.5:8022" none]) :=
  ⟨(cloudlet_handoff_scheme_dispatch "file://dest-vm" "img-1" none).1
      (by decide),
   (cloudlet_handoff_scheme_dispatch "http://dest" "img-1" none).2.2.1
      (by decide) rfl,
   (cloudlet_handoff_scheme_dispatch "tcp://10.0.0.5:8022" "img-1" none).2.1
      (by decide)⟩

end Cloudlet
